import Mathlib

/-!
Verification of the filter-list command handlers (`bot/cogs/filter_lists.py`)
and the command-error dispatcher (tested by
`tests/bot/cogs/test_error_handler.py`) of the moderation-bot repository.

The Python code is shallowly embedded: each handler becomes a pure Lean
function from its inputs, the ambient cache, and an environment record
describing the responses of the external collaborators (the remote list
store, the invite validator, the id-pattern matcher) to a result record
holding the emitted store calls, the reactions sent, the raised error (if
any), and the updated cache.
-/

namespace Bot

/-- A filter-list entry as returned by the remote store
(`{id, allowed, type, content, comment}`). -/
structure Entry where
  id : Nat
  allowed : Bool
  type : String
  content : String
  comment : Option String
deriving DecidableEq, Repr

/-- The local list cache: `bot.filter_list_cache`, a mapping from the string
key `f"{list_type}.{allowed}"` to an ordered sequence of entries. -/
def Cache : Type := String → List Entry

/-- Point update of the cache at one key. -/
def Cache.update (c : Cache) (k : String) (v : List Entry) : Cache :=
  fun k' => if k' = k then v else c k'

/-- The cache key `f"{list_type}.{allowed}"`; Python renders the bool
`allowed` as `"True"` / `"False"`. -/
def cacheKey (list_type : String) (allowed : Bool) : String :=
  list_type ++ "." ++ (if allowed then "True" else "False")

/-- Resolved guild data from `ValidDiscordServerInvite().convert`:
the fields `id` and `name` read off the guild object. -/
structure GuildData where
  id : String
  name : String
deriving DecidableEq, Repr

/-- An error response from the remote store (`ResponseCodeError`),
abstracted to its HTTP status. -/
structure ResponseCodeError where
  status : Nat
deriving DecidableEq, Repr

/-- An exception escaping a handler: either a user-facing `BadArgument`
with its message, or a propagated `ResponseCodeError`. -/
inductive RaisedError where
  | badArgument (msg : String)
  | responseCodeError (e : ResponseCodeError)
deriving DecidableEq, Repr

/-- The JSON payload submitted to `POST bot/filter-lists`. -/
structure Payload where
  allowed : Bool
  type : String
  content : String
  comment : Option String
deriving DecidableEq, Repr

/-- A reaction added to the invoking message: ✅ or ❌. -/
inductive Reaction where
  | success
  | failure
deriving DecidableEq, Repr

/-- Python truthiness of the optional `comment` string:
`None` and `""` are falsy. -/
def commentTruthy : Option String → Bool
  | none => false
  | some s => !s.isEmpty

/-- The text of `f"whitelist"`/`f"blacklist"` selected by `allowed`. -/
def allowTypeName (allowed : Bool) : String :=
  if allowed then "whitelist" else "blacklist"

/-- The `BadArgument` message raised by `_add_data` on a 400 response. -/
def uniquenessErrorMsg (allowed : Bool) : String :=
  "Unable to add the item to the " ++ allowTypeName allowed ++ ". " ++
  "The item probably already exists. Keep in mind that a " ++
  "blacklist and a whitelist for the same item cannot co-exist, " ++
  "and we do not permit any duplicates."

/-- Responses of the external collaborators during one `_add_data` call:
the invite validator's outcome (`BadArgument` message or guild data) and
the store's response to the create call (`ResponseCodeError` or the
created entry). -/
structure AddEnv where
  inviteResult : Except String GuildData
  postResult : Except ResponseCodeError Entry

/-- Observable outcome of one `_add_data` call. -/
structure AddResult where
  storeCalls : List Payload
  reactions : List Reaction
  outcome : Except RaisedError Unit
  cache : Cache

/-- The invite-normalisation prefix of `_add_data`: for `GUILD_INVITE`
lists, resolve the invite, replace `content` with the guild id and default
an untruthy `comment` to the guild name; other list types pass through. -/
def resolveAdd (env : AddEnv) (list_type : String) (content : String)
    (comment : Option String) : Except String (String × Option String) :=
  if list_type = "GUILD_INVITE" then
    match env.inviteResult with
    | .error msg => .error msg
    | .ok g => .ok (g.id, if commentTruthy comment then comment else some g.name)
  else
    .ok (content, comment)

/-- Modelled from the spec: `Bot.insert_item_into_filter_list_cache` lives
outside the shown sources; the spec says "insert the returned entry into
the Local List Cache under key `type.allowed`", so the entry is appended
to the sequence at its own key. -/
def insertItemIntoFilterListCache (cache : Cache) (item : Entry) : Cache :=
  cache.update (cacheKey item.type item.allowed)
    (cache (cacheKey item.type item.allowed) ++ [item])

/-- Embedding of `FilterLists._add_data`: validate/normalise the content, submit the
payload to the store, and on success insert the returned entry into the
cache and react ✅; a 400 response reacts ❌ and raises the uniqueness
`BadArgument`; other store errors propagate. -/
def addData (env : AddEnv) (allowed : Bool) (list_type : String)
    (content : String) (comment : Option String) (cache : Cache) : AddResult :=
  match resolveAdd env list_type content comment with
  | .error msg =>
      { storeCalls := [], reactions := [],
        outcome := .error (.badArgument msg), cache := cache }
  | .ok (content, comment) =>
      let payload : Payload :=
        { allowed := allowed, type := list_type, content := content, comment := comment }
      match env.postResult with
      | .error e =>
          if e.status = 400 then
            { storeCalls := [payload], reactions := [.failure],
              outcome := .error (.badArgument (uniquenessErrorMsg allowed)),
              cache := cache }
          else
            { storeCalls := [payload], reactions := [],
              outcome := .error (.responseCodeError e), cache := cache }
      | .ok item =>
          { storeCalls := [payload], reactions := [.success],
            outcome := .ok (), cache := insertItemIntoFilterListCache cache item }

/-- Responses of the external collaborators during one `_delete_data` call:
whether `IDConverter()._get_id_match(content)` matched, the invite
validator's outcome, and the store's response to the delete call. -/
structure DeleteEnv where
  idMatch : Bool
  inviteResult : Except String GuildData
  deleteResult : Except ResponseCodeError Unit

/-- Observable outcome of one `_delete_data` call; `storeCalls` holds the
ids passed to `DELETE bot/filter-lists/{id}`. -/
structure DeleteResult where
  storeCalls : List Nat
  reactions : List Reaction
  outcome : Except RaisedError Unit
  cache : Cache

/-- The invite-normalisation prefix of `_delete_data`: for `GUILD_INVITE`
lists whose content is not already a raw id, resolve the invite and use
the guild id; otherwise pass the content through. -/
def resolveDelete (env : DeleteEnv) (list_type : String) (content : String) :
    Except String String :=
  if list_type = "GUILD_INVITE" ∧ ¬env.idMatch then
    match env.inviteResult with
    | .error msg => .error msg
    | .ok g => .ok g.id
  else
    .ok content

/-- Embedding of `FilterLists._delete_data`: normalise the content, scan the cached
sequence at `f"{list_type}.{allowed}"` for the first entry whose `content`
equals it; if none, do nothing; if found, delete it by id at the store,
remove it from the cache and react ✅. -/
def deleteData (env : DeleteEnv) (allowed : Bool) (list_type : String)
    (content : String) (cache : Cache) : DeleteResult :=
  match resolveDelete env list_type content with
  | .error msg =>
      { storeCalls := [], reactions := [],
        outcome := .error (.badArgument msg), cache := cache }
  | .ok content =>
      let key := cacheKey list_type allowed
      match (cache key).find? (fun e => content = e.content) with
      | none =>
          { storeCalls := [], reactions := [], outcome := .ok (), cache := cache }
      | some item =>
          match env.deleteResult with
          | .error e =>
              { storeCalls := [item.id], reactions := [],
                outcome := .error (.responseCodeError e), cache := cache }
          | .ok _ =>
              { storeCalls := [item.id], reactions := [.success],
                outcome := .ok (),
                cache := cache.update key ((cache key).erase item) }

/-- One display line of `_list_all_data`: a bullet, the content wrapped
in backticks, then a dash and the comment when the comment is truthy. -/
def renderLine (e : Entry) : String :=
  let line := "• `" ++ e.content ++ "`"
  if commentTruthy e.comment then
    line ++ " - " ++ e.comment.getD ""
  else
    line

/-- What `_list_all_data` presents: a paginated line list with its
`max_lines` page size, or the fixed empty-list placeholder description. -/
inductive ListOutput where
  | paginated (lines : List String) (maxLines : Nat)
  | placeholder (msg : String)
deriving DecidableEq, Repr

/-- The placeholder description shown for an empty list. -/
def emptyListMsg : String := "Hmmm, seems like there's nothing here yet."

/-- Embedding of `FilterLists._list_all_data`: render one line per cached entry, sort
the lines, and paginate them 15 per page, or show the placeholder when the
cached sequence is empty. The cache is only read. -/
def listAllData (allowed : Bool) (list_type : String) (cache : Cache) :
    ListOutput × Cache :=
  let result := cache (cacheKey list_type allowed)
  let lines := (result.map renderLine).mergeSort (fun a b => decide (a ≤ b))
  if result.isEmpty then
    (.placeholder emptyListMsg, cache)
  else
    (.paginated lines 15, cache)

/-- Classification of an incoming command error by the dispatcher. -/
inductive ErrorKind where
  | commandNotFound
  | userInputError
  | checkFailure
  | commandOnCooldown
  | other
deriving DecidableEq, Repr

/-- A command error as seen by the dispatcher: its kind, the optional
`handled` marker string, and the `invoked_from_error_handler` marker. -/
structure DispatchError where
  kind : ErrorKind
  handled : Option String
  invokedFromErrorHandler : Bool
deriving DecidableEq, Repr

/-- Python truthiness of the `handled` marker: absent or `""` is falsy. -/
def handledTruthy (h : Option String) : Bool :=
  match h with
  | none => false
  | some s => !s.isEmpty

/-- The invoking context, abstracted to its originating channel id. -/
structure DispatchCtx where
  channelId : Nat
deriving DecidableEq, Repr

/-- Environment of one dispatch: what the channel-silence recovery action
returns when attempted, and the designated verification channel's id. -/
structure DispatchEnv where
  trySilenceResult : Bool
  verificationChannelId : Nat
deriving DecidableEq, Repr

/-- An action taken by the dispatcher, in order of occurrence. -/
inductive DispatchAction where
  | trySilence
  | tryGetTag
  | handleUserInputError
  | handleCheckFailure
  | sendCooldownMessage
  | genericHandler
deriving DecidableEq, Repr

/-- Modelled from the spec: `ErrorHandler.on_command_error`, whose
module is outside the shown sources (only its tests are shown). Per the
spec's decision table: a truthy `handled` marker means do nothing; for
"command not found", an `invoked_from_error_handler` marker skips
everything, otherwise the channel-silence recovery is attempted first and,
when it signals `false` and the channel is not the verification channel,
the "get tag" fallback runs; user-input, check-failure and cooldown errors
delegate to their dedicated handlers; anything else falls through to the
generic handler. The returned list records the attempted actions in
order. -/
def onCommandError (env : DispatchEnv) (ctx : DispatchCtx)
    (error : DispatchError) : List DispatchAction :=
  if handledTruthy error.handled then
    []
  else
    match error.kind with
    | .commandNotFound =>
        if error.invokedFromErrorHandler then
          []
        else if env.trySilenceResult then
          [.trySilence]
        else if ctx.channelId = env.verificationChannelId then
          [.trySilence]
        else
          [.trySilence, .tryGetTag]
    | .userInputError => [.handleUserInputError]
    | .checkFailure => [.handleCheckFailure]
    | .commandOnCooldown => [.sendCooldownMessage]
    | .other => [.genericHandler]

/-! Concrete fixtures used to instantiate the theorems below. -/

/-- A domain entry with no comment. -/
def entryA : Entry := { id := 1, allowed := false, type := "DOMAIN", content := "a.com", comment := none }

/-- A second entry duplicating `entryA`'s content. -/
def entryB : Entry := { id := 2, allowed := false, type := "DOMAIN", content := "a.com", comment := some "dup" }

/-- A distinct domain entry with a comment. -/
def entryC : Entry := { id := 3, allowed := false, type := "DOMAIN", content := "c.com", comment := some "why" }

/-- A cache holding three entries on the domain blacklist key and nothing
elsewhere. -/
def cache₁ : Cache := fun k => if k = "DOMAIN.False" then [entryC, entryA, entryB] else []

/-- An empty cache. -/
def cache₀ : Cache := fun _ => []

/-- An add environment whose store call fails with status 400. -/
def env400 : AddEnv := { inviteResult := .error "bad invite", postResult := .error { status := 400 } }

/-- An add environment whose invite resolves and whose store call
succeeds. -/
def envInviteOk : AddEnv :=
  { inviteResult := .ok { id := "123456789", name := "Guild Name" },
    postResult := .ok entryA }

/-- A delete environment whose store call succeeds. -/
def envDelOk : DeleteEnv := { idMatch := true, inviteResult := .error "bad invite", deleteResult := .ok () }

/-- A delete environment whose store call fails with status 500. -/
def envDel500 : DeleteEnv :=
  { idMatch := true, inviteResult := .error "bad invite", deleteResult := .error { status := 500 } }

/-- A dispatch environment: silence recovery reports `false`, verification
channel id 1234. -/
def envDisp : DispatchEnv := { trySilenceResult := false, verificationChannelId := 1234 }

/-- A dispatching context originating from channel 999. -/
def ctxDisp : DispatchCtx := { channelId := 999 }

end Bot

namespace Bot

/-- C1: if the resolution step succeeds and the store's create call fails
with status 400, `_add_data` reacts ❌, raises the user-facing
`BadArgument` stating the item probably already exists and that a
blacklist and a whitelist for the same item cannot co-exist, issues
exactly one create call (no retry), and leaves the cache unchanged. -/
theorem add_conflict_fails_no_retry_cache_unchanged
    (env : AddEnv) (allowed : Bool) (list_type content : String)
    (comment : Option String) (cache : Cache) (c : String)
    (m : Option String) (e : ResponseCodeError)
    (hres : resolveAdd env list_type content comment = .ok (c, m))
    (hpost : env.postResult = .error e) (h400 : e.status = 400) :
    (addData env allowed list_type content comment cache).reactions = [.failure] ∧
    (addData env allowed list_type content comment cache).outcome =
      .error (.badArgument (uniquenessErrorMsg allowed)) ∧
    (addData env allowed list_type content comment cache).storeCalls.length = 1 ∧
    (addData env allowed list_type content comment cache).cache = cache := by
  unfold addData
  rw [hres, hpost]
  simp [h400]

/-- Witness for C1 at a concrete input: a domain add against a store
returning 400. -/
theorem add_conflict_fails_no_retry_cache_unchanged_witness :
    (addData env400 false "DOMAIN" "a.com" none cache₁).reactions = [.failure] ∧
    (addData env400 false "DOMAIN" "a.com" none cache₁).outcome =
      .error (.badArgument (uniquenessErrorMsg false)) ∧
    (addData env400 false "DOMAIN" "a.com" none cache₁).storeCalls.length = 1 ∧
    (addData env400 false "DOMAIN" "a.com" none cache₁).cache = cache₁ :=
  add_conflict_fails_no_retry_cache_unchanged env400 false "DOMAIN" "a.com"
    none cache₁ "a.com" none { status := 400 } (by rfl) (by rfl) (by rfl)

/-- C2: for a guild-invite add whose invite resolves, the (single) payload
submitted to the store carries the resolved server id as content, and the
resolved server name as comment when the supplied comment is untruthy,
the supplied comment otherwise. -/
theorem add_invite_payload_content_and_comment
    (env : AddEnv) (allowed : Bool) (content : String)
    (comment : Option String) (cache : Cache) (g : GuildData)
    (hg : env.inviteResult = .ok g) :
    (addData env allowed "GUILD_INVITE" content comment cache).storeCalls =
      [{ allowed := allowed, type := "GUILD_INVITE", content := g.id,
         comment := if commentTruthy comment then comment else some g.name }] := by
  unfold addData resolveAdd
  rw [hg]
  rcases hpost : env.postResult with e | item
  · by_cases h : e.status = 400 <;> simp [h]
  · simp

/-- Witness for C2 at a concrete input: an invite add with no comment,
against a resolving validator. -/
theorem add_invite_payload_content_and_comment_witness :
    (addData envInviteOk true "GUILD_INVITE" "discord.gg/abc" none cache₀).storeCalls =
      [{ allowed := true, type := "GUILD_INVITE", content := "123456789",
         comment := if commentTruthy none then none else some "Guild Name" }] :=
  add_invite_payload_content_and_comment envInviteOk true "discord.gg/abc"
    none cache₀ { id := "123456789", name := "Guild Name" } (by rfl)

/-- C3: when no cached entry under the key has the (possibly resolved)
content, `_delete_data` is a no-op: no store call, cache unchanged, no
error raised, no reaction sent. -/
theorem delete_absent_is_noop
    (env : DeleteEnv) (allowed : Bool) (list_type content : String)
    (cache : Cache) (c : String)
    (hres : resolveDelete env list_type content = .ok c)
    (hfind : (cache (cacheKey list_type allowed)).find?
      (fun e => c = e.content) = none) :
    deleteData env allowed list_type content cache =
      { storeCalls := [], reactions := [], outcome := .ok (), cache := cache } := by
  unfold deleteData
  rw [hres]
  simp only [hfind]

/-- Witness for C3 at a concrete input: deleting a content value absent
from the cache. -/
theorem delete_absent_is_noop_witness :
    deleteData envDelOk false "DOMAIN" "missing.com" cache₁ =
      { storeCalls := [], reactions := [], outcome := .ok (), cache := cache₁ } :=
  delete_absent_is_noop envDelOk false "DOMAIN" "missing.com" cache₁
    "missing.com" (by rfl) (by rfl)

/-- C4: when a matching cache entry exists and the store call succeeds,
`_delete_data` issues exactly one delete-by-id call (for that entry's id),
removes exactly one entry from the cached sequence at the key, leaves
every other key untouched, and reacts ✅. -/
theorem delete_found_removes_one_and_acknowledges
    (env : DeleteEnv) (allowed : Bool) (list_type content : String)
    (cache : Cache) (c : String) (item : Entry)
    (hres : resolveDelete env list_type content = .ok c)
    (hfind : (cache (cacheKey list_type allowed)).find?
      (fun e => c = e.content) = some item)
    (hdel : env.deleteResult = .ok ()) :
    (deleteData env allowed list_type content cache).storeCalls = [item.id] ∧
    (deleteData env allowed list_type content cache).reactions = [.success] ∧
    (deleteData env allowed list_type content cache).cache (cacheKey list_type allowed) =
      (cache (cacheKey list_type allowed)).erase item ∧
    ((deleteData env allowed list_type content cache).cache
      (cacheKey list_type allowed)).length + 1 =
      (cache (cacheKey list_type allowed)).length ∧
    (∀ k, k ≠ cacheKey list_type allowed →
      (deleteData env allowed list_type content cache).cache k = cache k) := by
  have hmem : item ∈ cache (cacheKey list_type allowed) :=
    List.mem_of_find?_eq_some hfind
  have hpos : 0 < (cache (cacheKey list_type allowed)).length :=
    List.length_pos_of_mem hmem
  have hlen : ((cache (cacheKey list_type allowed)).erase item).length =
      (cache (cacheKey list_type allowed)).length - 1 :=
    List.length_erase_of_mem hmem
  unfold deleteData
  rw [hres]
  simp only [hfind, hdel]
  refine ⟨by simp, by simp, by simp [Cache.update], ?_, ?_⟩
  · simp [Cache.update, hlen]
    omega
  · intro k hk
    simp [Cache.update, hk]

/-- Witness for C4 at a concrete input: deleting a present content value
from the domain blacklist. -/
theorem delete_found_removes_one_and_acknowledges_witness :
    (deleteData envDelOk false "DOMAIN" "c.com" cache₁).storeCalls = [entryC.id] ∧
    (deleteData envDelOk false "DOMAIN" "c.com" cache₁).reactions = [.success] ∧
    (deleteData envDelOk false "DOMAIN" "c.com" cache₁).cache (cacheKey "DOMAIN" false) =
      (cache₁ (cacheKey "DOMAIN" false)).erase entryC ∧
    ((deleteData envDelOk false "DOMAIN" "c.com" cache₁).cache
      (cacheKey "DOMAIN" false)).length + 1 =
      (cache₁ (cacheKey "DOMAIN" false)).length ∧
    (∀ k, k ≠ cacheKey "DOMAIN" false →
      (deleteData envDelOk false "DOMAIN" "c.com" cache₁).cache k = cache₁ k) :=
  delete_found_removes_one_and_acknowledges envDelOk false "DOMAIN" "c.com"
    cache₁ "c.com" entryC (by rfl) (by rfl) (by rfl)

/-- C5: `_list_all_data` never changes the cache; on an empty cached
sequence it shows the fixed placeholder without paginating, and on a
non-empty one it paginates, 15 lines per page, a sorted permutation of
the rendered lines (one per cached entry). -/
theorem list_all_sorted_pagination_cache_unchanged
    (allowed : Bool) (list_type : String) (cache : Cache) :
    (listAllData allowed list_type cache).2 = cache ∧
    (if (cache (cacheKey list_type allowed)).isEmpty then
      (listAllData allowed list_type cache).1 = .placeholder emptyListMsg
    else ∃ lines,
      (listAllData allowed list_type cache).1 = .paginated lines 15 ∧
      List.Sorted (· ≤ ·) lines ∧
      lines.Perm ((cache (cacheKey list_type allowed)).map renderLine)) := by
  unfold listAllData
  by_cases h : (cache (cacheKey list_type allowed)).isEmpty
  · simp [h]
  · refine ⟨by simp [h], ?_⟩
    rw [if_neg h]
    exact ⟨_, by simp [h], List.sorted_mergeSort' _, List.mergeSort_perm _ _⟩

/-- Witness for C5 at a concrete input: listing the three-entry domain
blacklist. -/
theorem list_all_sorted_pagination_cache_unchanged_witness :
    (listAllData false "DOMAIN" cache₁).2 = cache₁ ∧
    (∃ lines,
      (listAllData false "DOMAIN" cache₁).1 = .paginated lines 15 ∧
      List.Sorted (· ≤ ·) lines ∧
      lines.Perm ((cache₁ (cacheKey "DOMAIN" false)).map renderLine)) := by
  have h := list_all_sorted_pagination_cache_unchanged false "DOMAIN" cache₁
  refine ⟨h.1, ?_⟩
  have h2 := h.2
  rw [if_neg (by decide)] at h2
  exact h2

/-- C9: when the cached sequence at the key splits as `l₁ ++ item :: l₂`
with no content match in `l₁` and `item` matching, `_delete_data` (with a
succeeding store) sends exactly `item`'s id to the store and leaves
`l₁ ++ l₂` at the key: the first match in cache order is removed and every
later match survives. -/
theorem delete_duplicates_removes_first_match
    (env : DeleteEnv) (allowed : Bool) (list_type content : String)
    (cache : Cache) (c : String) (item : Entry) (l₁ l₂ : List Entry)
    (hres : resolveDelete env list_type content = .ok c)
    (hcache : cache (cacheKey list_type allowed) = l₁ ++ item :: l₂)
    (hl₁ : ∀ e ∈ l₁, c ≠ e.content)
    (hitem : c = item.content)
    (hdel : env.deleteResult = .ok ()) :
    (deleteData env allowed list_type content cache).storeCalls = [item.id] ∧
    (deleteData env allowed list_type content cache).cache
      (cacheKey list_type allowed) = l₁ ++ l₂ := by
  have hfind : (cache (cacheKey list_type allowed)).find?
      (fun e => c = e.content) = some item := by
    rw [hcache, List.find?_append]
    have h₁ : l₁.find? (fun e => decide (c = e.content)) = none :=
      List.find?_eq_none.mpr (fun e he => by simpa using hl₁ e he)
    rw [h₁, List.find?_cons_of_pos _ (by simpa using hitem)]
    rfl
  have hni : item ∉ l₁ := fun hmem => hl₁ item hmem hitem
  have herase : (cache (cacheKey list_type allowed)).erase item = l₁ ++ l₂ := by
    rw [hcache, List.erase_append_right _ hni, List.erase_cons_head]
  unfold deleteData
  rw [hres]
  simp only [hfind, hdel]
  simp [Cache.update, herase]

/-- Witness for C9 at a concrete input: the domain blacklist holds two
entries with content `a.com`; the first (id 1) is removed and the second
(id 2) survives. -/
theorem delete_duplicates_removes_first_match_witness :
    (deleteData envDelOk false "DOMAIN" "a.com" cache₁).storeCalls = [entryA.id] ∧
    (deleteData envDelOk false "DOMAIN" "a.com" cache₁).cache
      (cacheKey "DOMAIN" false) = [entryC] ++ [entryB] :=
  delete_duplicates_removes_first_match envDelOk false "DOMAIN" "a.com"
    cache₁ "a.com" entryA [entryC] [entryB] (by rfl) (by rfl) (by decide)
    (by rfl) (by rfl)

/-- C10: when a matching entry is found but the store's delete-by-id call
raises, `_delete_data` leaves the cache unchanged, sends no ✅ reaction,
and propagates the store error. -/
theorem delete_store_error_leaves_cache_unchanged
    (env : DeleteEnv) (allowed : Bool) (list_type content : String)
    (cache : Cache) (c : String) (item : Entry) (e : ResponseCodeError)
    (hres : resolveDelete env list_type content = .ok c)
    (hfind : (cache (cacheKey list_type allowed)).find?
      (fun x => c = x.content) = some item)
    (hdel : env.deleteResult = .error e) :
    (deleteData env allowed list_type content cache).cache = cache ∧
    (deleteData env allowed list_type content cache).reactions = [] ∧
    (deleteData env allowed list_type content cache).outcome =
      .error (.responseCodeError e) := by
  unfold deleteData
  rw [hres]
  simp only [hfind, hdel]
  simp

/-- Witness for C10 at a concrete input: deleting `c.com` while the store
answers 500. -/
theorem delete_store_error_leaves_cache_unchanged_witness :
    (deleteData envDel500 false "DOMAIN" "c.com" cache₁).cache = cache₁ ∧
    (deleteData envDel500 false "DOMAIN" "c.com" cache₁).reactions = [] ∧
    (deleteData envDel500 false "DOMAIN" "c.com" cache₁).outcome =
      .error (.responseCodeError { status := 500 }) :=
  delete_store_error_leaves_cache_unchanged envDel500 false "DOMAIN" "c.com"
    cache₁ "c.com" entryC { status := 500 } (by rfl) (by rfl) (by rfl)

/-- C6: for a not-yet-handled "command not found" error without the
`invoked_from_error_handler` marker, the channel-silence recovery is
attempted first; when it returns true the tag fallback is never called;
when it returns false in the verification channel the tag fallback is
never called; otherwise the tag fallback is called exactly once. -/
theorem dispatch_command_not_found_routing
    (env : DispatchEnv) (ctx : DispatchCtx) (error : DispatchError)
    (hh : handledTruthy error.handled = false)
    (hk : error.kind = .commandNotFound)
    (hi : error.invokedFromErrorHandler = false) :
    (onCommandError env ctx error).head? = some .trySilence ∧
    (env.trySilenceResult = true →
      DispatchAction.tryGetTag ∉ onCommandError env ctx error) ∧
    (env.trySilenceResult = false → ctx.channelId = env.verificationChannelId →
      DispatchAction.tryGetTag ∉ onCommandError env ctx error) ∧
    (env.trySilenceResult = false → ctx.channelId ≠ env.verificationChannelId →
      (onCommandError env ctx error).count .tryGetTag = 1) := by
  obtain ⟨k, hnd, inv⟩ := error
  have hk' : k = ErrorKind.commandNotFound := hk
  have hi' : inv = false := hi
  have hh' : handledTruthy hnd = false := hh
  subst hk' hi'
  by_cases hs : env.trySilenceResult <;>
    by_cases hc : ctx.channelId = env.verificationChannelId <;>
      simp [onCommandError, hh', hs, hc]

/-- Witness for C6 at a concrete input: channel 999, verification channel
1234, silence recovery returning false — the tag fallback runs once, after
the silence attempt. -/
theorem dispatch_command_not_found_routing_witness :
    (onCommandError envDisp ctxDisp
      { kind := .commandNotFound, handled := none,
        invokedFromErrorHandler := false }).head? = some .trySilence ∧
    (onCommandError envDisp ctxDisp
      { kind := .commandNotFound, handled := none,
        invokedFromErrorHandler := false }).count .tryGetTag = 1 := by
  have h := dispatch_command_not_found_routing envDisp ctxDisp
    { kind := .commandNotFound, handled := none, invokedFromErrorHandler := false }
    (by rfl) (by rfl) (by rfl)
  exact ⟨h.1, h.2.2.2 (by rfl) (by decide)⟩

/-- C7: an error whose `handled` marker is truthy produces no dispatcher
action at all. -/
theorem dispatch_already_handled_no_action
    (env : DispatchEnv) (ctx : DispatchCtx) (error : DispatchError)
    (hh : handledTruthy error.handled = true) :
    onCommandError env ctx error = [] := by
  unfold onCommandError
  simp [hh]

/-- Witness for C7 at a concrete input: a generic command error carrying
`handled = "foo"`. -/
theorem dispatch_already_handled_no_action_witness :
    onCommandError envDisp ctxDisp
      { kind := .other, handled := some "foo",
        invokedFromErrorHandler := false } = [] :=
  dispatch_already_handled_no_action envDisp ctxDisp
    { kind := .other, handled := some "foo", invokedFromErrorHandler := false }
    (by rfl)

/-- C8: a "command not found" error carrying the
`invoked_from_error_handler` marker is skipped unconditionally: no
silence attempt, no verification-channel check, no tag fallback, no
action. -/
theorem dispatch_invoked_from_handler_no_action
    (env : DispatchEnv) (ctx : DispatchCtx) (error : DispatchError)
    (hk : error.kind = .commandNotFound)
    (hi : error.invokedFromErrorHandler = true) :
    onCommandError env ctx error = [] := by
  obtain ⟨k, hnd, inv⟩ := error
  have hk' : k = ErrorKind.commandNotFound := hk
  have hi' : inv = true := hi
  subst hk' hi'
  by_cases hh : handledTruthy hnd <;> simp [onCommandError, hh]

/-- Witness for C8 at a concrete input: an unhandled "command not found"
marked as invoked from the error handler. -/
theorem dispatch_invoked_from_handler_no_action_witness :
    onCommandError envDisp ctxDisp
      { kind := .commandNotFound, handled := none,
        invokedFromErrorHandler := true } = [] :=
  dispatch_invoked_from_handler_no_action envDisp ctxDisp
    { kind := .commandNotFound, handled := none, invokedFromErrorHandler := true }
    (by rfl) (by rfl)

end Bot
